import Mathlib

/-!
Shallow embedding of the comparison/scoring/explanation pipeline of
"The Referee" (backend/src/services/comparisonEngine.ts and
backend/src/services/explanationGenerator.ts / pivot generator, plus the
data-model row types of backend/src/types/index.ts).

Modelling conventions:
* JavaScript numbers are modelled as exact rationals (`ℚ`).
* The scalability-modifier columns of a weight row are `Option ℚ`:
  `some q` models a value whose JS coercion `Number(x)` is the finite
  number `q`, while `none` models `null`/`undefined`/non-numeric values,
  whose coercion is `NaN` (falsy, like `0`).
* `Math.round` is `⌊q + 1/2⌋` (JS rounds half-way cases toward +∞).
* The insertion-ordered JS `Map` built by `getEffectiveWeights` is an
  association list where `set` overwrites the value of an existing key in
  place and appends fresh keys at the end.
-/

namespace Referee

/-- Ordinal rating of an attribute: `'low' | 'medium' | 'high'`. -/
inductive Rating where
  | low
  | medium
  | high
deriving DecidableEq, Repr

/-- The user's scalability priority: `'low' | 'medium' | 'high'`. -/
inductive Priority where
  | low
  | medium
  | high
deriving DecidableEq, Repr

/-- `support_level` of an option/integration link. -/
inductive SupportLevel where
  | native
  | plugin
  | custom
deriving DecidableEq, Repr

/-- Row of the `options` table (`OptionRow`). -/
structure OptionRow where
  id : String
  name : String
  description : String
  category : String
deriving DecidableEq, Repr

/-- Row of the `attributes` table (`AttributeRow`). -/
structure AttributeRow where
  id : String
  option_id : String
  attribute_type : String
  value : String
  rating : Rating
deriving DecidableEq, Repr

/-- Row of the `weights` table (`WeightRow`). -/
structure WeightRow where
  id : String
  attribute_type : String
  default_weight : ℚ
  scalability_low_modifier : Option ℚ
  scalability_medium_modifier : Option ℚ
  scalability_high_modifier : Option ℚ
deriving DecidableEq, Repr

/-- Row of the `option_integrations` table (`OptionIntegrationRow`). -/
structure OptionIntegrationRow where
  option_id : String
  integration_id : String
  support_level : SupportLevel
deriving DecidableEq, Repr

/-- User-supplied constraints (`Constraints`). -/
structure Constraints where
  budgetMin : ℚ
  budgetMax : ℚ
  scalabilityPriority : Priority
  requiredIntegrations : List String
deriving DecidableEq, Repr

/-- `RATING_SCORES`: rating → numeric score mapping (low 1, medium 2, high 3).
The source's `RATING_SCORES[attr.rating] || 0` fallback is unreachable
because `rating` is the closed union `'low' | 'medium' | 'high'`. -/
def RATING_SCORES : Rating → ℚ
  | .low => 1
  | .medium => 2
  | .high => 3

/-- `getScalabilityModifierKey` combined with the field access
`weight[modifierKey]`: selects the modifier column named by the priority. -/
def selectedScalabilityModifier (weight : WeightRow) (priority : Priority) :
    Option ℚ :=
  match priority with
  | .low => weight.scalability_low_modifier
  | .medium => weight.scalability_medium_modifier
  | .high => weight.scalability_high_modifier

/-- JS `Number(x) || 1.0`: `NaN` (modelled `none`) and `0` are falsy and
give `1.0`; any other number is returned unchanged. -/
def jsOrOne : Option ℚ → ℚ
  | none => 1
  | some v => if v = 0 then 1 else v

/-- `calculateEffectiveWeight`: default weight times the selected
scalability modifier (with the `|| 1.0` fallback). -/
def calculateEffectiveWeight (weight : WeightRow) (constraints : Constraints) :
    ℚ :=
  weight.default_weight *
    jsOrOne (selectedScalabilityModifier weight constraints.scalabilityPriority)

/-- `Math.round` on an exact rational: half-way cases round toward +∞. -/
def jsRound (q : ℚ) : ℤ := ⌊q + 1 / 2⌋

/-- `optionSupportsRequiredIntegrations`: true if no integrations are
required, or the option has no integration rows at all, or every required
integration id appears among the option's rows. -/
def optionSupportsRequiredIntegrations (optionId : String)
    (optionIntegrations : List OptionIntegrationRow)
    (requiredIntegrations : List String) : Bool :=
  if requiredIntegrations.isEmpty then true
  else
    let supportedIntegrationIds :=
      (optionIntegrations.filter (fun oi => oi.option_id = optionId)).map
        (fun oi => oi.integration_id)
    if supportedIntegrationIds.isEmpty then true
    else
      requiredIntegrations.all (fun reqId =>
        supportedIntegrationIds.contains reqId)

/-- `ATTRIBUTE_ICONS` lookup with the `|| '📊'` fallback. -/
def ATTRIBUTE_ICONS (attributeType : String) : String :=
  if attributeType = "cost_model" then "💰"
  else if attributeType = "scalability" then "📈"
  else if attributeType = "complexity" then "⚙️"
  else if attributeType = "maintenance" then "🔧"
  else "📊"

/-- `AttributeValue`. -/
structure AttributeValue where
  value : String
  rating : Rating
  icon : String
deriving DecidableEq, Repr

/-- `toAttributeValue`. -/
def toAttributeValue (attr : AttributeRow) : AttributeValue :=
  { value := attr.value
    rating := attr.rating
    icon := ATTRIBUTE_ICONS attr.attribute_type }

/-- One step of the accumulation loop in `calculateOptionScore`:
`(totalScore, totalWeight)` updated by one attribute row. -/
def scoreStep (weights : List WeightRow) (constraints : Constraints)
    (acc : ℚ × ℚ) (attr : AttributeRow) : ℚ × ℚ :=
  match weights.find? (fun w => w.attribute_type = attr.attribute_type) with
  | none => acc
  | some weight =>
      let effectiveWeight := calculateEffectiveWeight weight constraints
      let ratingScore := RATING_SCORES attr.rating
      (acc.1 + ratingScore * effectiveWeight, acc.2 + effectiveWeight)

/-- `calculateOptionScore`: weighted, normalized 0–100 score of one
option's attribute rows. -/
def calculateOptionScore (attributes : List AttributeRow)
    (weights : List WeightRow) (constraints : Constraints) : ℤ :=
  let acc := attributes.foldl (scoreStep weights constraints) (0, 0)
  if acc.2 = 0 then 0 else jsRound (acc.1 / (acc.2 * 3) * 100)

/-- `OptionComparison.attributes`: the four per-option display records. -/
structure OptionAttributes where
  costModel : AttributeValue
  scalability : AttributeValue
  complexity : AttributeValue
  maintenance : AttributeValue
deriving DecidableEq, Repr

/-- `OptionComparison`. -/
structure OptionComparison where
  id : String
  name : String
  description : String
  attributes : OptionAttributes
  score : ℤ
deriving DecidableEq, Repr

/-- The fixed iteration order `attributeTypes` of `buildAttributeMatrix`. -/
def attributeTypes : List String :=
  ["cost_model", "scalability", "complexity", "maintenance"]

/-- `buildAttributeMatrix`: attribute-type → (option-id → AttributeValue);
absent (type, option) combinations are omitted. -/
def buildAttributeMatrix (options : List OptionRow)
    (attributes : List AttributeRow) :
    List (String × List (String × AttributeValue)) :=
  attributeTypes.map (fun attrType =>
    (attrType,
      options.filterMap (fun option =>
        (attributes.find? (fun a =>
            a.option_id = option.id ∧ a.attribute_type = attrType)).map
          (fun a => (option.id, toAttributeValue a)))))

/-- `ComparisonResult`. -/
structure ComparisonResult where
  options : List OptionComparison
  matrix : List (String × List (String × AttributeValue))
deriving DecidableEq, Repr

/-- `getAttrValue` inside `buildOptionComparison`: the option's attribute
of the given type, or the `"N/A"` / `medium` placeholder. -/
def getAttrValue (optionAttrs : List AttributeRow) (t : String) :
    AttributeValue :=
  match optionAttrs.find? (fun a => a.attribute_type = t) with
  | some attr => toAttributeValue attr
  | none => { value := "N/A", rating := .medium, icon := "❓" }

/-- `buildOptionComparison`. -/
def buildOptionComparison (option : OptionRow)
    (attributes : List AttributeRow) (weights : List WeightRow)
    (constraints : Constraints) : OptionComparison :=
  let optionAttrs := attributes.filter (fun a => a.option_id = option.id)
  { id := option.id
    name := option.name
    description := option.description
    attributes :=
      { costModel := getAttrValue optionAttrs "cost_model"
        scalability := getAttrValue optionAttrs "scalability"
        complexity := getAttrValue optionAttrs "complexity"
        maintenance := getAttrValue optionAttrs "maintenance" }
    score := calculateOptionScore optionAttrs weights constraints }

/-- `ComparisonEngineInput`. -/
structure ComparisonEngineInput where
  options : List OptionRow
  attributes : List AttributeRow
  weights : List WeightRow
  optionIntegrations : List OptionIntegrationRow
  constraints : Constraints
deriving DecidableEq, Repr

/-- `compare`: filter options by required integrations, score each
survivor, and build the attribute matrix. -/
def compare (input : ComparisonEngineInput) : ComparisonResult :=
  let filteredOptions := input.options.filter (fun option =>
    optionSupportsRequiredIntegrations option.id input.optionIntegrations
      input.constraints.requiredIntegrations)
  { options := filteredOptions.map (fun option =>
      buildOptionComparison option input.attributes input.weights
        input.constraints)
    matrix := buildAttributeMatrix filteredOptions input.attributes }

/-- JS `Map.set` on an insertion-ordered association list: an existing
key keeps its position and gets the new value; a fresh key is appended. -/
def mapSet (m : List (String × ℚ)) (k : String) (v : ℚ) :
    List (String × ℚ) :=
  if m.any (fun p => p.1 = k) then
    m.map (fun p => if p.1 = k then (k, v) else p)
  else m ++ [(k, v)]

/-- `getEffectiveWeights`: attribute type → effective weight, as the
insertion-ordered map built by iterating over the weight rows. -/
def getEffectiveWeights (weights : List WeightRow)
    (constraints : Constraints) : List (String × ℚ) :=
  weights.foldl
    (fun m weight =>
      mapSet m weight.attribute_type
        (calculateEffectiveWeight weight constraints))
    []

/-- The running-maximum loop of `getPrimaryAttribute`, starting from
`maxWeight = 0`, `primaryAttr = 'scalability'`. -/
def primaryFold (l : List (String × ℚ)) (best : ℚ × String) : ℚ × String :=
  l.foldl (fun best p => if best.1 < p.2 then (p.2, p.1) else best) best

/-- `getPrimaryAttribute`: attribute type with the highest effective
weight (strict improvement over a running maximum initialised to `0`
with fallback attribute `'scalability'`). -/
def getPrimaryAttribute (weights : List WeightRow)
    (constraints : Constraints) : String :=
  (primaryFold (getEffectiveWeights weights constraints)
    (0, "scalability")).2

/-- `ATTRIBUTE_NAMES` lookup with the `|| attr` fallback to the raw
attribute-type identifier. -/
def ATTRIBUTE_NAMES (t : String) : String :=
  if t = "cost_model" then "cost efficiency"
  else if t = "scalability" then "scalability"
  else if t = "complexity" then "operational simplicity"
  else if t = "maintenance" then "maintenance overhead"
  else t

/-- The "insufficient options" summary sentence. -/
def insufficientOptionsSentence : String :=
  "Insufficient options available for comparison based on current constraints."

/-- The "closely matched" summary sentence (score difference < 10). -/
def closelyMatchedSentence (nameA nameB : String) : String :=
  nameA ++ " and " ++ nameB ++
    " are closely matched under your current constraints. " ++
    "The decision depends on which specific attributes matter most to your use case."

/-- The "stronger fit / may be preferable" summary sentence (score
difference ≥ 10), naming the higher-scoring option first. -/
def strongerFitSentence (higherName : String) (higherScore : ℤ)
    (lowerName : String) (lowerScore : ℤ) : String :=
  "Based on your constraints, " ++ higherName ++
    " shows a stronger fit (score: " ++ toString higherScore ++
    ") compared to " ++ lowerName ++ " (score: " ++ toString lowerScore ++
    "). However, " ++ lowerName ++ " may be preferable " ++
    "if certain attributes are more critical to your specific needs."

/-- `generateSummary`. -/
def generateSummary (comparison : ComparisonResult)
    (_constraints : Constraints) : String :=
  match comparison.options with
  | optionA :: optionB :: _ =>
      let scoreDiff := |optionA.score - optionB.score|
      if scoreDiff < 10 then
        closelyMatchedSentence optionA.name optionB.name
      else
        let higher := if optionA.score > optionB.score then optionA else optionB
        let lower := if optionA.score > optionB.score then optionB else optionA
        strongerFitSentence higher.name higher.score lower.name lower.score
  | _ => insufficientOptionsSentence

/-- `PivotResult`. -/
structure PivotResult where
  statement : String
  primaryFactor : String
  secondaryFactor : String
  optionA : String
  optionB : String
deriving DecidableEq, Repr

/-- The local `ratingValue` table of `generatePivot`
(low 1, medium 2, high 3). -/
def ratingValue : Rating → ℕ
  | .low => 1
  | .medium => 2
  | .high => 3

/-- `attrKeyMap[t]` followed by `optionX.attributes[key]`, with the given
fallback field used when `t` is not one of the four attribute types. -/
def attrByKey (attrs : OptionAttributes) (t : String)
    (fallback : OptionAttributes → AttributeValue) : AttributeValue :=
  if t = "cost_model" then attrs.costModel
  else if t = "scalability" then attrs.scalability
  else if t = "complexity" then attrs.complexity
  else if t = "maintenance" then attrs.maintenance
  else fallback attrs

/-- The recommendation assignment of `generatePivot`: the
`(recommendForPrimary, recommendForSecondary)` pair after the rating
comparisons and the final same-option flip. -/
def pivotTargets (optionA optionB : OptionComparison)
    (primaryAttr secondaryAttr : String) : String × String :=
  let aRatingPrimary :=
    (attrByKey optionA.attributes primaryAttr (fun a => a.scalability)).rating
  let bRatingPrimary :=
    (attrByKey optionB.attributes primaryAttr (fun a => a.scalability)).rating
  let aRatingSecondary :=
    (attrByKey optionA.attributes secondaryAttr (fun a => a.costModel)).rating
  let bRatingSecondary :=
    (attrByKey optionB.attributes secondaryAttr (fun a => a.costModel)).rating
  let recommendForPrimary :=
    if ratingValue aRatingPrimary < ratingValue bRatingPrimary then
      optionB.name
    else optionA.name
  let recommendForSecondary :=
    if ratingValue aRatingPrimary < ratingValue bRatingPrimary then
      optionA.name
    else if ratingValue bRatingSecondary < ratingValue aRatingSecondary then
      (if recommendForPrimary = optionA.name then optionB.name
       else optionA.name)
    else optionB.name
  if recommendForPrimary = recommendForSecondary then
    (recommendForPrimary,
      if recommendForPrimary = optionA.name then optionB.name
      else optionA.name)
  else (recommendForPrimary, recommendForSecondary)

/-- The secondary-attribute loop of `generatePivot`: running maximum over
the non-primary effective weights, seeded with `('cost_model', 0)`. -/
def secondaryAttrFold (effectiveWeights : List (String × ℚ))
    (primaryAttr : String) : String :=
  (effectiveWeights.foldl
    (fun best p =>
      if p.1 ≠ primaryAttr ∧ best.1 < p.2 then (p.2, p.1) else best)
    ((0 : ℚ), "cost_model")).2

/-- The pivot statement rendered from its factor names and targets. -/
def pivotStatement (primaryName secondaryName target1 target2 : String) :
    String :=
  "If " ++ primaryName ++ " matters more than " ++ secondaryName ++
    ", choose " ++ target1 ++ "; otherwise choose " ++ target2

/-- `generatePivot`. -/
def generatePivot (comparison : ComparisonResult)
    (constraints : Constraints) (weights : List WeightRow) : PivotResult :=
  match comparison.options with
  | optionA :: optionB :: _ =>
      let primaryAttr := getPrimaryAttribute weights constraints
      let effectiveWeights := getEffectiveWeights weights constraints
      let secondaryAttr := secondaryAttrFold effectiveWeights primaryAttr
      let primaryName := ATTRIBUTE_NAMES primaryAttr
      let secondaryName := ATTRIBUTE_NAMES secondaryAttr
      let targets := pivotTargets optionA optionB primaryAttr secondaryAttr
      { statement :=
          pivotStatement primaryName secondaryName targets.1 targets.2
        primaryFactor := primaryName
        secondaryFactor := secondaryName
        optionA := optionA.name
        optionB := optionB.name }
  | options =>
      { statement :=
          "Unable to generate pivot statement with fewer than two options."
        primaryFactor := "N/A"
        secondaryFactor := "N/A"
        optionA :=
          match options.head? with
          | some o => if o.name = "" then "N/A" else o.name
          | none => "N/A"
        optionB := "N/A" }

/-! Spec-side definitions, written from the specification's words, to be
compared with the definitions embedded from the source. -/

/-- Modelled from the claim's words: `effectiveWeight = default_weight ×
the modifier field selected by scalabilityPriority`, with the stored
modifier used as-is. A missing (`null`/`NaN`) modifier is taken as `1` to
keep the function total; a stored `0` is used literally, which is where
this formula and `calculateEffectiveWeight` part ways. -/
def claimEffectiveWeight (weight : WeightRow) (constraints : Constraints) :
    ℚ :=
  weight.default_weight *
    (selectedScalabilityModifier weight constraints.scalabilityPriority).getD 1

/-- Row-level weighted sum: one term per attribute row that has a
matching weight row (the first with the same attribute type). -/
def rowWeightedSum (attributes : List AttributeRow)
    (weights : List WeightRow) (constraints : Constraints)
    (effW : WeightRow → Constraints → ℚ) : ℚ :=
  (attributes.map (fun a =>
    match weights.find? (fun w => w.attribute_type = a.attribute_type) with
    | some w => RATING_SCORES a.rating * effW w constraints
    | none => 0)).sum

/-- Row-level total weight: one term per attribute row that has a
matching weight row. -/
def rowTotalWeight (attributes : List AttributeRow)
    (weights : List WeightRow) (constraints : Constraints)
    (effW : WeightRow → Constraints → ℚ) : ℚ :=
  (attributes.map (fun a =>
    match weights.find? (fun w => w.attribute_type = a.attribute_type) with
    | some w => effW w constraints
    | none => 0)).sum

/-- Spec-side weighted sum `Σ(ratingScore × effectiveWeight)`: ranges
over the option's present attribute types (the types of its attribute
rows), keeping exactly those with a matching weight row. -/
def specWeightedSum (attributes : List AttributeRow)
    (weights : List WeightRow) (constraints : Constraints)
    (effW : WeightRow → Constraints → ℚ) : ℚ :=
  ((attributes.map (fun a => a.attribute_type)).map (fun t =>
    match attributes.find? (fun a => a.attribute_type = t),
        weights.find? (fun w => w.attribute_type = t) with
    | some a, some w => RATING_SCORES a.rating * effW w constraints
    | _, _ => 0)).sum

/-- Spec-side total weight `Σ(effectiveWeight)`: ranges over the option's
present attribute types that have a matching weight row. -/
def specTotalWeight (attributes : List AttributeRow)
    (weights : List WeightRow) (constraints : Constraints)
    (effW : WeightRow → Constraints → ℚ) : ℚ :=
  ((attributes.map (fun a => a.attribute_type)).map (fun t =>
    match weights.find? (fun w => w.attribute_type = t) with
    | some w => effW w constraints
    | none => 0)).sum

/-- Spec-side score: `round(100 × weightedSum / (totalWeight × 3))`, and
`0` when the total weight is `0`. Parameterized by the effective-weight
formula so the claim's literal formula and the code's fallback formula
can both be instantiated. -/
def specScore (attributes : List AttributeRow) (weights : List WeightRow)
    (constraints : Constraints) (effW : WeightRow → Constraints → ℚ) : ℤ :=
  let totalWeight := specTotalWeight attributes weights constraints effW
  if totalWeight = 0 then 0
  else
    jsRound
      (100 * specWeightedSum attributes weights constraints effW /
        (totalWeight * 3))

/-- Non-negativity invariant of the data model: the default weight and
every stored scalability modifier of a weight row are non-negative. -/
def WeightRow.Nonneg (w : WeightRow) : Prop :=
  0 ≤ w.default_weight ∧
    (∀ q ∈ w.scalability_low_modifier, 0 ≤ q) ∧
    (∀ q ∈ w.scalability_medium_modifier, 0 ≤ q) ∧
    (∀ q ∈ w.scalability_high_modifier, 0 ≤ q)

/-- Running maximum of the second components, seeded with `m`. -/
def listMax (l : List (String × ℚ)) (m : ℚ) : ℚ :=
  l.foldl (fun m p => max m p.2) m

end Referee

namespace RefereeData

open Referee

/-- Constraints with scalability priority `low` (budget 0–50000, no
required integrations). -/
def cLow : Constraints :=
  { budgetMin := 0, budgetMax := 50000
    scalabilityPriority := .low, requiredIntegrations := [] }

/-- Seeded weight rows of `database/seed.sql`. -/
def seededWeights : List WeightRow :=
  [ { id := "sw1", attribute_type := "cost_model", default_weight := 3/10
      scalability_low_modifier := some (12/10)
      scalability_medium_modifier := some 1
      scalability_high_modifier := some (8/10) },
    { id := "sw2", attribute_type := "scalability", default_weight := 1/4
      scalability_low_modifier := some (6/10)
      scalability_medium_modifier := some 1
      scalability_high_modifier := some (15/10) },
    { id := "sw3", attribute_type := "complexity", default_weight := 1/4
      scalability_low_modifier := some 1
      scalability_medium_modifier := some 1
      scalability_high_modifier := some (9/10) },
    { id := "sw4", attribute_type := "maintenance", default_weight := 1/5
      scalability_low_modifier := some (11/10)
      scalability_medium_modifier := some 1
      scalability_high_modifier := some (9/10) } ]

def wCost : WeightRow :=
  { id := "w1", attribute_type := "cost_model", default_weight := 3/10
    scalability_low_modifier := some (12/10)
    scalability_medium_modifier := some 1
    scalability_high_modifier := some (8/10) }

def wScal : WeightRow :=
  { id := "w2", attribute_type := "scalability", default_weight := 1/4
    scalability_low_modifier := some (6/10)
    scalability_medium_modifier := some 1
    scalability_high_modifier := some (15/10) }

def wCompl : WeightRow :=
  { id := "w3", attribute_type := "complexity", default_weight := 1/4
    scalability_low_modifier := some 1
    scalability_medium_modifier := some 1
    scalability_high_modifier := some 1 }

def wMaint : WeightRow :=
  { id := "w4", attribute_type := "maintenance", default_weight := 1/5
    scalability_low_modifier := some 1
    scalability_medium_modifier := some 1
    scalability_high_modifier := some 1 }

/-- Constraints with scalability priority `high` (budget 0–50000, no
required integrations), as in the spec's example scenario. -/
def cHigh : Constraints :=
  { budgetMin := 0, budgetMax := 50000
    scalabilityPriority := .high, requiredIntegrations := [] }

/-- The spec example's weight list (cost/scalability modifiers as given,
"others 1.0"). -/
def exWeights : List WeightRow := [wCost, wScal, wCompl, wMaint]

/-- Option A of the spec's example scenario. -/
def optA : OptionRow :=
  { id := "A", name := "Option A", description := "dA", category := "db" }

/-- Option B of the spec's example scenario. -/
def optB : OptionRow :=
  { id := "B", name := "Option B", description := "dB", category := "db" }

/-- Option A's attribute rows (scalability high, cost low, complexity and
maintenance medium). -/
def attrsA : List AttributeRow :=
  [ { id := "a1", option_id := "A", attribute_type := "scalability",
      value := "v", rating := .high },
    { id := "a2", option_id := "A", attribute_type := "cost_model",
      value := "v", rating := .low },
    { id := "a3", option_id := "A", attribute_type := "complexity",
      value := "v", rating := .medium },
    { id := "a4", option_id := "A", attribute_type := "maintenance",
      value := "v", rating := .medium } ]

/-- Option B's attribute rows (scalability low, cost high, complexity and
maintenance medium). -/
def attrsB : List AttributeRow :=
  [ { id := "b1", option_id := "B", attribute_type := "scalability",
      value := "v", rating := .low },
    { id := "b2", option_id := "B", attribute_type := "cost_model",
      value := "v", rating := .high },
    { id := "b3", option_id := "B", attribute_type := "complexity",
      value := "v", rating := .medium },
    { id := "b4", option_id := "B", attribute_type := "maintenance",
      value := "v", rating := .medium } ]

/-- The spec example's comparison-engine input. -/
def exInput : ComparisonEngineInput :=
  { options := [optA, optB]
    attributes := attrsA ++ attrsB
    weights := exWeights
    optionIntegrations := []
    constraints := cHigh }

/-- A placeholder attribute value for hand-built `OptionComparison`s. -/
def avMed : AttributeValue := { value := "v", rating := .medium, icon := "i" }

/-- A hand-built scored option named "Alpha". -/
def ocAlpha : OptionComparison :=
  { id := "A", name := "Alpha", description := "d"
    attributes :=
      { costModel := avMed, scalability := avMed
        complexity := avMed, maintenance := avMed }
    score := 70 }

/-- A hand-built scored option named "Beta". -/
def ocBeta : OptionComparison :=
  { id := "B", name := "Beta", description := "d"
    attributes :=
      { costModel := avMed, scalability := avMed
        complexity := avMed, maintenance := avMed }
    score := 65 }

/-- A comparison result holding only "Alpha". -/
def singletonComparison : ComparisonResult :=
  { options := [ocAlpha], matrix := [] }

/-- A comparison result holding no options. -/
def emptyComparison : ComparisonResult :=
  { options := [], matrix := [] }

/-- A comparison result holding "Alpha" and "Beta". -/
def pairComparison : ComparisonResult :=
  { options := [ocAlpha, ocBeta], matrix := [] }

/-- A single attribute row rated high on `cost_model`. -/
def zAttrRow : AttributeRow :=
  { id := "z1", option_id := "Z", attribute_type := "cost_model",
    value := "v", rating := .high }

/-- A weight row whose high-priority scalability modifier is stored as
`0`. -/
def zWeightRow : WeightRow :=
  { id := "zw", attribute_type := "cost_model", default_weight := 1
    scalability_low_modifier := some 1
    scalability_medium_modifier := some 1
    scalability_high_modifier := some 0 }

/-- A weight row for `cost_model` with default weight `0`. -/
def zeroWeightRow : WeightRow :=
  { id := "w0", attribute_type := "cost_model", default_weight := 0
    scalability_low_modifier := some 1
    scalability_medium_modifier := some 1
    scalability_high_modifier := some 1 }

/-- The constraints of the weight-sensitivity scenario with a given
priority: budget and required integrations arbitrary. -/
def sensConstraints (bmin bmax : ℚ) (req : List String) (p : Priority) :
    Constraints :=
  { budgetMin := bmin, budgetMax := bmax
    scalabilityPriority := p, requiredIntegrations := req }

end RefereeData

namespace Referee

open RefereeData

/-- C10: whenever the scalability modifier selected by the priority is
missing (`null`/`NaN`, modelled `none`) or stored as `0`,
`calculateEffectiveWeight` substitutes the modifier `1.0`, so the
effective weight equals the default weight. -/
theorem calculateEffectiveWeight_falsy_modifier (w : WeightRow)
    (c : Constraints)
    (h : selectedScalabilityModifier w c.scalabilityPriority = none ∨
      selectedScalabilityModifier w c.scalabilityPriority = some 0) :
    calculateEffectiveWeight w c = w.default_weight := by
  rcases h with h | h <;> simp [calculateEffectiveWeight, jsOrOne, h]

/-- Witness for `calculateEffectiveWeight_falsy_modifier`: a weight row
whose low modifier is stored as `0` keeps its default weight `1/2`. -/
theorem calculateEffectiveWeight_falsy_modifier_witness :
    calculateEffectiveWeight
      { id := "w0", attribute_type := "cost_model", default_weight := 1/2
        scalability_low_modifier := some 0
        scalability_medium_modifier := some 1
        scalability_high_modifier := some 1 } cLow =
      (1 : ℚ)/2 :=
  calculateEffectiveWeight_falsy_modifier _ cLow (Or.inr rfl)

/-- C9 counterexample: with a single surviving option named "Alpha",
`generatePivot` fills `optionA` with that option's name, not with
`'N/A'` — falsifying "the value 'N/A' for all remaining fields". -/
theorem generatePivot_single_option_optionA_not_NA :
    singletonComparison.options.length < 2 ∧
      (generatePivot singletonComparison cLow []).optionA = "Alpha" ∧
      ("Alpha" : String) ≠ "N/A" := by
  refine ⟨by decide, ?_, by decide⟩
  simp [generatePivot, singletonComparison, ocAlpha]

/-- C9 amended: with fewer than 2 options, `generatePivot` returns the
"unable to generate" statement and `'N/A'` for `primaryFactor`,
`secondaryFactor` and `optionB`, while `optionA` is the sole option's
name when a (non-empty-named) option is present and `'N/A'` otherwise. -/
theorem generatePivot_insufficient_options (comparison : ComparisonResult)
    (c : Constraints) (weights : List WeightRow)
    (h : comparison.options.length < 2) :
    (generatePivot comparison c weights).statement =
        "Unable to generate pivot statement with fewer than two options." ∧
      (generatePivot comparison c weights).primaryFactor = "N/A" ∧
      (generatePivot comparison c weights).secondaryFactor = "N/A" ∧
      (generatePivot comparison c weights).optionB = "N/A" ∧
      (generatePivot comparison c weights).optionA =
        (match comparison.options.head? with
          | some o => if o.name = "" then "N/A" else o.name
          | none => "N/A") := by
  rcases hopts : comparison.options with _ | ⟨x, _ | ⟨y, rest⟩⟩
  · simp [generatePivot, hopts]
  · simp [generatePivot, hopts]
  · rw [hopts] at h
    simp at h
    omega

/-- Witness for `generatePivot_insufficient_options` at the empty
comparison. -/
theorem generatePivot_insufficient_options_witness :
    (generatePivot emptyComparison cLow []).primaryFactor = "N/A" :=
  (generatePivot_insufficient_options emptyComparison cLow []
    (by decide)).2.1

/-- The two targets computed by `pivotTargets` are distinct whenever the
two options' names are distinct. -/
theorem pivotTargets_ne (a b : OptionComparison)
    (primaryAttr secondaryAttr : String) (h : a.name ≠ b.name) :
    (pivotTargets a b primaryAttr secondaryAttr).1 ≠
      (pivotTargets a b primaryAttr secondaryAttr).2 := by
  dsimp only [pivotTargets]
  split_ifs <;> simp_all

/-- C5: whenever `generatePivot` sees a comparison whose first two
options are distinctly named, the "choose X" and "otherwise choose Y"
targets rendered into the statement are different option names (the
final flip makes this hold even when both selection rules point to the
same option). -/
theorem generatePivot_targets_distinct (comparison : ComparisonResult)
    (c : Constraints) (weights : List WeightRow) (a b : OptionComparison)
    (rest : List OptionComparison) (hopts : comparison.options = a :: b :: rest)
    (hname : a.name ≠ b.name) :
    ∃ t1 t2 : String, t1 ≠ t2 ∧
      (generatePivot comparison c weights).statement =
        pivotStatement
          (ATTRIBUTE_NAMES (getPrimaryAttribute weights c))
          (ATTRIBUTE_NAMES
            (secondaryAttrFold (getEffectiveWeights weights c)
              (getPrimaryAttribute weights c)))
          t1 t2 := by
  refine
    ⟨(pivotTargets a b (getPrimaryAttribute weights c)
        (secondaryAttrFold (getEffectiveWeights weights c)
          (getPrimaryAttribute weights c))).1,
      (pivotTargets a b (getPrimaryAttribute weights c)
        (secondaryAttrFold (getEffectiveWeights weights c)
          (getPrimaryAttribute weights c))).2,
      pivotTargets_ne a b _ _ hname, ?_⟩
  simp [generatePivot, hopts]

/-- Witness for `generatePivot_targets_distinct` on the "Alpha"/"Beta"
pair. -/
theorem generatePivot_targets_distinct_witness :
    ∃ t1 t2 : String, t1 ≠ t2 ∧
      (generatePivot pairComparison cLow []).statement =
        pivotStatement
          (ATTRIBUTE_NAMES (getPrimaryAttribute [] cLow))
          (ATTRIBUTE_NAMES
            (secondaryAttrFold (getEffectiveWeights [] cLow)
              (getPrimaryAttribute [] cLow)))
          t1 t2 :=
  generatePivot_targets_distinct pairComparison cLow [] ocAlpha ocBeta []
    rfl (by decide)

/-- C8: with exactly two options, a score difference below 10 yields the
"closely matched" sentence naming both options; otherwise the sentence
names the strictly higher-scoring option first with its score and states
that the lower-scoring option "may be preferable"; with fewer than two
options the summary is the insufficient-options sentence. -/
theorem generateSummary_spec (comp : ComparisonResult) (c : Constraints)
    (a b : OptionComparison) :
    (comp.options = [a, b] →
      ((|a.score - b.score| < 10 →
          generateSummary comp c = closelyMatchedSentence a.name b.name) ∧
        (10 ≤ |a.score - b.score| →
          ∃ hi lo : OptionComparison, lo.score < hi.score ∧
            ((hi = a ∧ lo = b) ∨ (hi = b ∧ lo = a)) ∧
            generateSummary comp c =
              strongerFitSentence hi.name hi.score lo.name lo.score))) ∧
    (comp.options.length < 2 →
      generateSummary comp c = insufficientOptionsSentence) := by
  constructor
  · intro hopts
    constructor
    · intro hlt
      simp [generateSummary, hopts, hlt]
    · intro hge
      have hne : a.score ≠ b.score := by
        intro he
        rw [he, sub_self, abs_zero] at hge
        norm_num at hge
      by_cases hab : a.score > b.score
      · refine ⟨a, b, hab, Or.inl ⟨rfl, rfl⟩, ?_⟩
        simp [generateSummary, hopts, not_lt.mpr hge, hab]
      · have hba : a.score < b.score :=
          lt_of_le_of_ne (not_lt.mp hab) hne
        refine ⟨b, a, hba, Or.inr ⟨rfl, rfl⟩, ?_⟩
        simp [generateSummary, hopts, not_lt.mpr hge, hab]
  · intro hlen
    rcases hopts : comp.options with _ | ⟨x, _ | ⟨y, rest⟩⟩
    · simp [generateSummary, hopts]
    · simp [generateSummary, hopts]
    · rw [hopts] at hlen
      simp at hlen
      omega

/-- Witness for `generateSummary_spec`: "Alpha" (70) and "Beta" (65) are
closely matched. -/
theorem generateSummary_spec_witness :
    |ocAlpha.score - ocBeta.score| < 10 ∧
      generateSummary pairComparison cLow =
        closelyMatchedSentence ocAlpha.name ocBeta.name :=
  ⟨by norm_num [ocAlpha, ocBeta],
    ((generateSummary_spec pairComparison cLow ocAlpha ocBeta).1 rfl).1
      (by norm_num [ocAlpha, ocBeta])⟩

/-- Boolean/propositional reading of
`optionSupportsRequiredIntegrations`. -/
theorem optionSupports_iff (optionId : String)
    (ois : List OptionIntegrationRow) (req : List String) :
    optionSupportsRequiredIntegrations optionId ois req = true ↔
      (req = [] ∨
        ois.filter (fun oi => oi.option_id = optionId) = [] ∨
        ∀ rid ∈ req, ∃ oi ∈ ois,
          oi.option_id = optionId ∧ oi.integration_id = rid) := by
  unfold optionSupportsRequiredIntegrations
  split_ifs with h1
  · simp_all
  · simp_all [List.all_eq_true, List.mem_map, List.mem_filter]
    constructor
    · rintro (h | h)
      · exact Or.inl h
      · refine Or.inr fun rid hrid => ?_
        obtain ⟨oi, ⟨hmem, hopt⟩, hint⟩ := h rid hrid
        exact ⟨oi, hmem, hopt, hint⟩
    · rintro (h | h)
      · exact Or.inl h
      · refine Or.inr fun rid hrid => ?_
        obtain ⟨oi, hmem, hopt, hint⟩ := h rid hrid
        exact ⟨oi, ⟨hmem, hopt⟩, hint⟩

/-- C3: with pairwise-distinct option ids, `compare` retains an option
iff no integrations are required, or the option has no integration rows
at all, or every required integration id has a row for that option. -/
theorem compare_retains_iff (input : ComparisonEngineInput)
    (hids : (input.options.map (fun o => o.id)).Nodup)
    (o : OptionRow) (ho : o ∈ input.options) :
    (∃ oc ∈ (compare input).options, oc.id = o.id) ↔
      (input.constraints.requiredIntegrations = [] ∨
        input.optionIntegrations.filter (fun oi => oi.option_id = o.id)
          = [] ∨
        ∀ rid ∈ input.constraints.requiredIntegrations,
          ∃ oi ∈ input.optionIntegrations,
            oi.option_id = o.id ∧ oi.integration_id = rid) := by
  rw [← optionSupports_iff o.id input.optionIntegrations
    input.constraints.requiredIntegrations]
  constructor
  · rintro ⟨oc, hmem, hid⟩
    simp only [compare, List.mem_map, List.mem_filter] at hmem
    obtain ⟨o', ⟨ho', hp⟩, rfl⟩ := hmem
    have hido : o'.id = o.id := by
      simpa [buildOptionComparison] using hid
    have : o' = o := List.inj_on_of_nodup_map hids ho' ho hido
    subst this
    exact hp
  · intro hp
    refine
      ⟨buildOptionComparison o input.attributes input.weights
        input.constraints, ?_, rfl⟩
    simp only [compare, List.mem_map, List.mem_filter]
    exact ⟨o, ⟨ho, hp⟩, rfl⟩

/-- Witness for `compare_retains_iff` at the example input and option A. -/
theorem compare_retains_iff_witness :
    (∃ oc ∈ (compare exInput).options, oc.id = optA.id) ↔
      (exInput.constraints.requiredIntegrations = [] ∨
        exInput.optionIntegrations.filter
          (fun oi => oi.option_id = optA.id) = [] ∨
        ∀ rid ∈ exInput.constraints.requiredIntegrations,
          ∃ oi ∈ exInput.optionIntegrations,
            oi.option_id = optA.id ∧ oi.integration_id = rid) :=
  compare_retains_iff exInput (by decide) optA (by decide)

/-- `jsOrOne` of a modifier with non-negative stored values is
non-negative. -/
theorem jsOrOne_nonneg (m : Option ℚ) (h : ∀ q ∈ m, 0 ≤ q) :
    0 ≤ jsOrOne m := by
  cases m with
  | none => norm_num [jsOrOne]
  | some v =>
      by_cases hv : v = 0
      · simp [jsOrOne, hv]
      · simpa [jsOrOne, hv] using h v rfl

/-- The effective weight of a non-negative weight row is non-negative. -/
theorem calculateEffectiveWeight_nonneg (w : WeightRow) (c : Constraints)
    (h : w.Nonneg) : 0 ≤ calculateEffectiveWeight w c := by
  obtain ⟨hd, hl, hm, hh⟩ := h
  refine mul_nonneg hd (jsOrOne_nonneg _ ?_)
  cases hc : c.scalabilityPriority <;>
    simp only [selectedScalabilityModifier]
  · exact hl
  · exact hm
  · exact hh

/-- One `scoreStep` preserves
`0 ≤ totalScore ∧ 0 ≤ totalWeight ∧ totalScore ≤ 3 × totalWeight`. -/
theorem scoreStep_invariant (weights : List WeightRow) (c : Constraints)
    (hw : ∀ w ∈ weights, w.Nonneg) (init : ℚ × ℚ) (a : AttributeRow)
    (h1 : 0 ≤ init.1) (h2 : 0 ≤ init.2) (h3 : init.1 ≤ 3 * init.2) :
    0 ≤ (scoreStep weights c init a).1 ∧
      0 ≤ (scoreStep weights c init a).2 ∧
      (scoreStep weights c init a).1 ≤ 3 * (scoreStep weights c init a).2 := by
  unfold scoreStep
  cases hfind : weights.find? (fun w => w.attribute_type = a.attribute_type)
  case none => exact ⟨h1, h2, h3⟩
  case some w =>
    have hwmem : w ∈ weights := List.mem_of_find?_eq_some hfind
    have hnn := calculateEffectiveWeight_nonneg w c (hw w hwmem)
    have hr1 : 1 ≤ RATING_SCORES a.rating := by
      cases a.rating <;> norm_num [RATING_SCORES]
    have hr3 : RATING_SCORES a.rating ≤ 3 := by
      cases a.rating <;> norm_num [RATING_SCORES]
    refine ⟨?_, ?_, ?_⟩ <;> dsimp <;> nlinarith

/-- The whole accumulation loop preserves the invariant. -/
theorem foldl_scoreStep_invariant (attrs : List AttributeRow)
    (weights : List WeightRow) (c : Constraints)
    (hw : ∀ w ∈ weights, w.Nonneg) :
    ∀ init : ℚ × ℚ, 0 ≤ init.1 → 0 ≤ init.2 → init.1 ≤ 3 * init.2 →
      0 ≤ (attrs.foldl (scoreStep weights c) init).1 ∧
        0 ≤ (attrs.foldl (scoreStep weights c) init).2 ∧
        (attrs.foldl (scoreStep weights c) init).1 ≤
          3 * (attrs.foldl (scoreStep weights c) init).2 := by
  induction attrs with
  | nil => exact fun init h1 h2 h3 => ⟨h1, h2, h3⟩
  | cons a rest ih =>
      intro init h1 h2 h3
      rw [List.foldl_cons]
      obtain ⟨s1, s2, s3⟩ := scoreStep_invariant weights c hw init a h1 h2 h3
      exact ih _ s1 s2 s3

/-- `calculateOptionScore` always lands in `[0, 100]` when all weight
rows are non-negative. -/
theorem calculateOptionScore_mem (attrs : List AttributeRow)
    (weights : List WeightRow) (c : Constraints)
    (hw : ∀ w ∈ weights, w.Nonneg) :
    0 ≤ calculateOptionScore attrs weights c ∧
      calculateOptionScore attrs weights c ≤ 100 := by
  unfold calculateOptionScore
  obtain ⟨hS, hW, hSW⟩ :=
    foldl_scoreStep_invariant attrs weights c hw (0, 0) (by norm_num)
      (by norm_num) (by norm_num)
  set acc := attrs.foldl (scoreStep weights c) (0, 0) with hacc
  by_cases hz : acc.2 = 0
  · simp [hz]
  · have hWpos : 0 < acc.2 := lt_of_le_of_ne hW (Ne.symm hz)
    have hq0 : 0 ≤ acc.1 / (acc.2 * 3) * 100 := by positivity
    have hq1 : acc.1 / (acc.2 * 3) * 100 ≤ 100 := by
      rw [div_mul_eq_mul_div, div_le_iff₀ (by positivity)]
      nlinarith
    rw [if_neg hz]
    unfold jsRound
    constructor
    · exact Int.le_floor.mpr (by push_cast; linarith)
    · have hfl := Int.floor_le (acc.1 / (acc.2 * 3) * 100 + 1 / 2)
      have hltq : (⌊acc.1 / (acc.2 * 3) * 100 + 1 / 2⌋ : ℚ) < 101 :=
        lt_of_le_of_lt hfl (by linarith)
      have hlt : ⌊acc.1 / (acc.2 * 3) * 100 + 1 / 2⌋ < (101 : ℤ) := by
        exact_mod_cast hltq
      omega

/-- C2: every `OptionComparison` produced by `compare` has an integer
score in `[0, 100]`, given the data-model invariant that weights are
non-negative. -/
theorem compare_score_bounds (input : ComparisonEngineInput)
    (hw : ∀ w ∈ input.weights, w.Nonneg) :
    ∀ oc ∈ (compare input).options, 0 ≤ oc.score ∧ oc.score ≤ 100 := by
  intro oc hmem
  simp only [compare, List.mem_map, List.mem_filter] at hmem
  obtain ⟨o', ⟨_, _⟩, rfl⟩ := hmem
  simpa [buildOptionComparison] using
    calculateOptionScore_mem _ input.weights input.constraints hw

/-- Witness for `compare_score_bounds`: the first surviving option of the
example input has a score in `[0, 100]`. -/
theorem compare_score_bounds_witness :
    0 ≤ (buildOptionComparison optA exInput.attributes exInput.weights
        exInput.constraints).score ∧
      (buildOptionComparison optA exInput.attributes exInput.weights
        exInput.constraints).score ≤ 100 :=
  compare_score_bounds exInput
    (by
      intro w hw
      fin_cases hw <;>
        norm_num [WeightRow.Nonneg, wCost, wScal, wCompl, wMaint,
          exWeights, exInput]) _
    (List.mem_cons_self _ _)

/-- The accumulation loop of `calculateOptionScore` computes the
row-level sums. -/
theorem foldl_scoreStep_eq (attrs : List AttributeRow)
    (weights : List WeightRow) (c : Constraints) :
    ∀ init : ℚ × ℚ,
      attrs.foldl (scoreStep weights c) init =
        (init.1 + rowWeightedSum attrs weights c calculateEffectiveWeight,
          init.2 + rowTotalWeight attrs weights c calculateEffectiveWeight) := by
  induction attrs with
  | nil => simp [rowWeightedSum, rowTotalWeight]
  | cons a rest ih =>
      intro init
      rw [List.foldl_cons, ih]
      unfold rowWeightedSum rowTotalWeight scoreStep
      cases hfind :
        weights.find? (fun w => w.attribute_type = a.attribute_type)
      · simp [hfind]
      · simp [hfind]
        constructor <;> ring

/-- Summing a per-type lookup term over an attribute list's (pairwise
distinct) types equals summing the per-row term over the rows. -/
theorem rowSum_eq_typeSum (f : AttributeRow → ℚ) :
    ∀ attrs : List AttributeRow,
      (attrs.map (fun a => a.attribute_type)).Nodup →
      ((attrs.map (fun a => a.attribute_type)).map (fun t =>
        match attrs.find? (fun a => a.attribute_type = t) with
        | some a => f a
        | none => 0)).sum = (attrs.map f).sum := by
  intro attrs
  induction attrs with
  | nil => simp
  | cons a rest ih =>
      intro hnodup
      rw [List.map_cons] at hnodup
      have hhead : a.attribute_type ∉ rest.map (fun a => a.attribute_type) :=
        (List.nodup_cons.mp hnodup).1
      have hrest : (rest.map (fun a => a.attribute_type)).Nodup :=
        (List.nodup_cons.mp hnodup).2
      rw [List.map_cons, List.map_cons, List.map_cons, List.sum_cons,
        List.sum_cons]
      have hfa :
          (a :: rest).find? (fun x => x.attribute_type = a.attribute_type) =
            some a :=
        List.find?_cons_of_pos _ (by simp)
      rw [hfa]
      have htail :
          (rest.map (fun a => a.attribute_type)).map (fun t =>
            match (a :: rest).find? (fun x => x.attribute_type = t) with
            | some x => f x
            | none => 0) =
          (rest.map (fun a => a.attribute_type)).map (fun t =>
            match rest.find? (fun x => x.attribute_type = t) with
            | some x => f x
            | none => 0) := by
        apply List.map_congr_left
        intro t ht
        have hne : ¬a.attribute_type = t := by
          intro he
          exact hhead (he ▸ ht)
        rw [List.find?_cons_of_neg _ (by simpa using hne)]
      rw [htail, ih hrest]

/-- The spec-side total weight over present types equals the row-level
total weight, given at most one attribute row per type. -/
theorem specTotalWeight_eq_row (attrs : List AttributeRow)
    (weights : List WeightRow) (c : Constraints)
    (effW : WeightRow → Constraints → ℚ)
    (hnodup : (attrs.map (fun a => a.attribute_type)).Nodup) :
    specTotalWeight attrs weights c effW =
      rowTotalWeight attrs weights c effW := by
  unfold specTotalWeight rowTotalWeight
  rw [← rowSum_eq_typeSum (fun a =>
    match weights.find? (fun w => w.attribute_type = a.attribute_type) with
    | some w => effW w c
    | none => 0) attrs hnodup]
  congr 1
  apply List.map_congr_left
  intro t ht
  have hsome : ∃ a ∈ attrs, a.attribute_type = t := by
    simpa [List.mem_map] using ht
  obtain ⟨a0, ha0, hta⟩ := hsome
  cases hfa : attrs.find? (fun a => a.attribute_type = t) with
  | none =>
      exfalso
      have := List.find?_eq_none.mp hfa a0 ha0
      simp [hta] at this
  | some a =>
      have hat : a.attribute_type = t := by
        have := List.find?_some hfa
        simpa using this
      subst hat
      rfl

/-- The spec-side weighted sum over present types equals the row-level
weighted sum, given at most one attribute row per type. -/
theorem specWeightedSum_eq_row (attrs : List AttributeRow)
    (weights : List WeightRow) (c : Constraints)
    (effW : WeightRow → Constraints → ℚ)
    (hnodup : (attrs.map (fun a => a.attribute_type)).Nodup) :
    specWeightedSum attrs weights c effW =
      rowWeightedSum attrs weights c effW := by
  unfold specWeightedSum rowWeightedSum
  rw [← rowSum_eq_typeSum (fun a =>
    match weights.find? (fun w => w.attribute_type = a.attribute_type) with
    | some w => RATING_SCORES a.rating * effW w c
    | none => 0) attrs hnodup]
  congr 1
  apply List.map_congr_left
  intro t ht
  cases hfa : attrs.find? (fun a => a.attribute_type = t) with
  | none => rfl
  | some a =>
      have hat : a.attribute_type = t := by
        have := List.find?_some hfa
        simpa using this
      subst hat
      show
        (match (some a : Option AttributeRow),
            weights.find? (fun w => w.attribute_type = a.attribute_type) with
          | some a, some w => RATING_SCORES a.rating * effW w c
          | _, _ => 0) =
          (match
              weights.find? (fun w => w.attribute_type = a.attribute_type) with
            | some w => RATING_SCORES a.rating * effW w c
            | none => 0)
      cases weights.find?
        (fun w => w.attribute_type = a.attribute_type) <;> rfl

/-- C1 counterexample: a weight row whose selected modifier is stored as
`0` makes the code's score (100) differ from the claim's formula (0),
even though the attribute list has one row per type. -/
theorem calculateOptionScore_ne_claim_formula :
    (([zAttrRow].map (fun a => a.attribute_type)).Nodup) ∧
      calculateOptionScore [zAttrRow] [zWeightRow] cHigh = 100 ∧
      specScore [zAttrRow] [zWeightRow] cHigh claimEffectiveWeight = 0 := by
  refine ⟨by decide, ?_, ?_⟩
  · simp [calculateOptionScore, scoreStep, calculateEffectiveWeight,
      selectedScalabilityModifier, jsOrOne, RATING_SCORES, jsRound, cHigh,
      zAttrRow, zWeightRow, List.find?]
    norm_num
  · simp [specScore, specTotalWeight, specWeightedSum,
      claimEffectiveWeight, selectedScalabilityModifier, cHigh,
      zAttrRow, zWeightRow, List.find?]

/-- C1 amended: with at most one attribute row per type, the code's
score equals `round(100 × Σ(ratingScore × effectiveWeight) /
(Σ(effectiveWeight) × 3))` over the option's present attribute types
with a matching weight row (score `0` when the total weight is `0`),
where the effective weight uses the code's nonzero-number fallback. -/
theorem calculateOptionScore_eq_specScore (attrs : List AttributeRow)
    (weights : List WeightRow) (c : Constraints)
    (hnodup : (attrs.map (fun a => a.attribute_type)).Nodup) :
    calculateOptionScore attrs weights c =
      specScore attrs weights c calculateEffectiveWeight := by
  unfold specScore
  rw [specTotalWeight_eq_row attrs weights c calculateEffectiveWeight hnodup,
    specWeightedSum_eq_row attrs weights c calculateEffectiveWeight hnodup]
  unfold calculateOptionScore
  rw [foldl_scoreStep_eq]
  simp only [zero_add]
  split_ifs with h
  · rfl
  · congr 1
    ring

/-- Witness for `calculateOptionScore_eq_specScore` at option A's
attribute rows and the example weights. -/
theorem calculateOptionScore_eq_specScore_witness :
    calculateOptionScore attrsA exWeights cHigh =
      specScore attrsA exWeights cHigh calculateEffectiveWeight :=
  calculateOptionScore_eq_specScore attrsA exWeights cHigh (by decide)

/-- With pairwise-distinct attribute types, the insertion-ordered map of
`getEffectiveWeights` is just the list of (type, effective weight)
pairs in input order. -/
theorem foldl_mapSet_eq (c : Constraints) :
    ∀ (weights : List WeightRow) (acc : List (String × ℚ)),
      (weights.map (fun w => w.attribute_type)).Nodup →
      (∀ w ∈ weights, ∀ p ∈ acc, p.1 ≠ w.attribute_type) →
      weights.foldl
        (fun m weight =>
          mapSet m weight.attribute_type
            (calculateEffectiveWeight weight c)) acc =
        acc ++ weights.map
          (fun w => (w.attribute_type, calculateEffectiveWeight w c)) := by
  intro weights
  induction weights with
  | nil => simp
  | cons w rest ih =>
      intro acc hnodup hdisj
      rw [List.map_cons] at hnodup
      have hnomem : ¬acc.any (fun p => p.1 = w.attribute_type) = true := by
        intro hany
        obtain ⟨p, hp, he⟩ := List.any_eq_true.mp hany
        exact hdisj w (List.mem_cons_self _ _) p hp (by simpa using he)
      rw [List.foldl_cons]
      have hset :
          mapSet acc w.attribute_type (calculateEffectiveWeight w c) =
            acc ++ [(w.attribute_type, calculateEffectiveWeight w c)] := by
        simp only [mapSet, if_neg hnomem]
      rw [hset,
        ih (acc ++ [(w.attribute_type, calculateEffectiveWeight w c)])
          (List.nodup_cons.mp hnodup).2 ?_]
      · simp
      · intro w' hw' p hp
        rcases List.mem_append.mp hp with hpa | hpn
        · exact hdisj w' (List.mem_cons_of_mem _ hw') p hpa
        · have hpw : p = (w.attribute_type, calculateEffectiveWeight w c) := by
            simpa using hpn

          subst hpw
          intro he
          have he' : w.attribute_type = w'.attribute_type := he
          apply (List.nodup_cons.mp hnodup).1
          rw [he']
          exact List.mem_map_of_mem _ hw'

/-- `getEffectiveWeights` on distinct attribute types. -/
theorem getEffectiveWeights_nodup_eq (weights : List WeightRow)
    (c : Constraints)
    (hnodup : (weights.map (fun w => w.attribute_type)).Nodup) :
    getEffectiveWeights weights c =
      weights.map
        (fun w => (w.attribute_type, calculateEffectiveWeight w c)) := by
  unfold getEffectiveWeights
  rw [foldl_mapSet_eq c weights [] hnodup (by simp)]
  simp

/-- A fold step that never improves the running maximum leaves the
accumulator unchanged. -/
theorem primaryFold_of_le (l : List (String × ℚ)) :
    ∀ b : ℚ × String, (∀ p ∈ l, p.2 ≤ b.1) → primaryFold l b = b := by
  induction l with
  | nil => intro b _; rfl
  | cons p rest ih =>
      intro b h
      unfold primaryFold
      rw [List.foldl_cons,
        if_neg (not_lt.mpr (h p (List.mem_cons_self _ _)))]
      exact ih b fun q hq => h q (List.mem_cons_of_mem _ hq)

/-- The running-maximum loop selects the first weight row whose
effective weight strictly exceeds the seed and is never exceeded later:
the first row attaining the maximum. -/
theorem primaryFold_first_max (c : Constraints) :
    ∀ (ws : List WeightRow) (b : ℚ × String),
      (∃ w ∈ ws, b.1 < calculateEffectiveWeight w c) →
      ∃ pre wmax post, ws = pre ++ wmax :: post ∧
        primaryFold
          (ws.map (fun w => (w.attribute_type, calculateEffectiveWeight w c)))
          b = (calculateEffectiveWeight wmax c, wmax.attribute_type) ∧
        b.1 < calculateEffectiveWeight wmax c ∧
        (∀ w ∈ ws,
          calculateEffectiveWeight w c ≤ calculateEffectiveWeight wmax c) ∧
        (∀ w ∈ pre,
          calculateEffectiveWeight w c < calculateEffectiveWeight wmax c) := by
  intro ws
  induction ws with
  | nil =>
      rintro b ⟨w, hw, _⟩
      exact absurd hw (List.not_mem_nil w)
  | cons w rest ih =>
      intro b hex
      rw [List.map_cons]
      unfold primaryFold
      rw [List.foldl_cons]
      by_cases hstep : b.1 < calculateEffectiveWeight w c
      · rw [if_pos hstep]
        by_cases hrest : ∃ w' ∈ rest,
            calculateEffectiveWeight w c < calculateEffectiveWeight w' c
        · obtain ⟨pre, wmax, post, heq, hfold, hb, hall, hpre⟩ :=
            ih (calculateEffectiveWeight w c, w.attribute_type) (by simpa using hrest)
          refine ⟨w :: pre, wmax, post, by rw [heq, List.cons_append], ?_, ?_, ?_, ?_⟩
          · exact hfold
          · exact lt_trans hstep hb
          · intro w'' hw''
            rcases List.mem_cons.mp hw'' with rfl | hmem
            · exact le_of_lt hb
            · exact hall w'' hmem
          · intro w'' hw''
            rcases List.mem_cons.mp hw'' with rfl | hmem
            · exact hb
            · exact hpre w'' hmem
        · push_neg at hrest
          refine ⟨[], w, rest, rfl, ?_, hstep, ?_, by simp⟩
          · exact primaryFold_of_le _ _ (by simpa using hrest)
          · intro w'' hw''
            rcases List.mem_cons.mp hw'' with rfl | hmem
            · exact le_refl _
            · exact hrest w'' hmem
      · rw [if_neg hstep]
        have hex' : ∃ w' ∈ rest, b.1 < calculateEffectiveWeight w' c := by
          rcases hex with ⟨w', hw', hlt⟩
          rcases List.mem_cons.mp hw' with rfl | hmem
          · exact absurd hlt hstep
          · exact ⟨w', hmem, hlt⟩
        obtain ⟨pre, wmax, post, heq, hfold, hb, hall, hpre⟩ := ih b hex'
        refine ⟨w :: pre, wmax, post, by rw [heq, List.cons_append],
          hfold, hb, ?_, ?_⟩
        · intro w'' hw''
          rcases List.mem_cons.mp hw'' with rfl | hmem
          · exact le_of_lt (lt_of_le_of_lt (not_lt.mp hstep) hb)
          · exact hall w'' hmem
        · intro w'' hw''
          rcases List.mem_cons.mp hw'' with rfl | hmem
          · exact lt_of_le_of_lt (not_lt.mp hstep) hb
          · exact hpre w'' hmem

/-- C4 counterexample: a single weight row with effective weight `0`
makes `getPrimaryAttribute` return its fallback `'scalability'`, which is
not an attribute type of the input. -/
theorem getPrimaryAttribute_fallback_not_input_type :
    getPrimaryAttribute [zeroWeightRow] cHigh = "scalability" ∧
      "scalability" ∉ [zeroWeightRow].map (fun w => w.attribute_type) := by
  constructor
  · have hz : calculateEffectiveWeight zeroWeightRow cHigh = 0 := by
      norm_num [calculateEffectiveWeight, selectedScalabilityModifier,
        jsOrOne, zeroWeightRow, cHigh]
    simp [getPrimaryAttribute, getEffectiveWeights, mapSet, primaryFold, hz]
  · decide

/-- C4 amended: when the attribute types are pairwise distinct and some
row has a strictly positive effective weight, `getPrimaryAttribute`
returns the attribute type of the first row attaining the maximal
effective weight (so the result is one of the input's attribute types,
deterministic, with ties broken by input order); with no positive
effective weight it falls back to `'scalability'`. -/
theorem getPrimaryAttribute_first_max (weights : List WeightRow)
    (c : Constraints)
    (hnodup : (weights.map (fun w => w.attribute_type)).Nodup)
    (hpos : ∃ w ∈ weights, 0 < calculateEffectiveWeight w c) :
    ∃ pre wmax post, weights = pre ++ wmax :: post ∧
      getPrimaryAttribute weights c = wmax.attribute_type ∧
      (∀ w ∈ weights,
        calculateEffectiveWeight w c ≤ calculateEffectiveWeight wmax c) ∧
      (∀ w ∈ pre,
        calculateEffectiveWeight w c < calculateEffectiveWeight wmax c) := by
  obtain ⟨pre, wmax, post, heq, hfold, _, hall, hpre⟩ :=
    primaryFold_first_max c weights ((0 : ℚ), "scalability")
      (by simpa using hpos)
  refine ⟨pre, wmax, post, heq, ?_, hall, hpre⟩
  unfold getPrimaryAttribute
  rw [getEffectiveWeights_nodup_eq weights c hnodup, hfold]

/-- Witness for `getPrimaryAttribute_first_max` at the example weights
with high scalability priority. -/
theorem getPrimaryAttribute_first_max_witness :
    ∃ pre wmax post, exWeights = pre ++ wmax :: post ∧
      getPrimaryAttribute exWeights cHigh = wmax.attribute_type ∧
      (∀ w ∈ exWeights,
        calculateEffectiveWeight w cHigh ≤
          calculateEffectiveWeight wmax cHigh) ∧
      (∀ w ∈ pre,
        calculateEffectiveWeight w cHigh <
          calculateEffectiveWeight wmax cHigh) :=
  getPrimaryAttribute_first_max exWeights cHigh (by decide)
    ⟨wCost, List.mem_cons_self _ _,
      by
        norm_num [calculateEffectiveWeight, selectedScalabilityModifier,
          jsOrOne, wCost, cHigh]⟩

/-- Effective weights of the example scenario under high scalability
priority. -/
theorem exEffectiveWeights :
    getEffectiveWeights exWeights cHigh =
      [("cost_model", 6/25), ("scalability", 3/8), ("complexity", 1/4),
        ("maintenance", 1/5)] := by
  simp [getEffectiveWeights, exWeights, mapSet, calculateEffectiveWeight,
    selectedScalabilityModifier, jsOrOne, wCost, wScal, wCompl, wMaint, cHigh]
  norm_num

/-- The example scenario's primary attribute is scalability. -/
theorem exPrimaryAttribute :
    getPrimaryAttribute exWeights cHigh = "scalability" := by
  unfold getPrimaryAttribute
  rw [exEffectiveWeights]
  norm_num [primaryFold]

/-- The example scenario's secondary attribute is complexity
(effective weight 1/4 beats cost_model's 6/25). -/
theorem exSecondaryAttribute :
    secondaryAttrFold (getEffectiveWeights exWeights cHigh) "scalability" =
      "complexity" := by
  rw [exEffectiveWeights]
  simp [secondaryAttrFold]
  norm_num

/-- Option A's example score is 71. -/
theorem exScoreA : calculateOptionScore attrsA exWeights cHigh = 71 := by
  simp [calculateOptionScore, scoreStep, calculateEffectiveWeight,
    selectedScalabilityModifier, jsOrOne, RATING_SCORES, jsRound, attrsA,
    wCost, wScal, wCompl, wMaint, exWeights, cHigh, List.find?]
  norm_num

/-- Option B's example score is 62. -/
theorem exScoreB : calculateOptionScore attrsB exWeights cHigh = 62 := by
  simp [calculateOptionScore, scoreStep, calculateEffectiveWeight,
    selectedScalabilityModifier, jsOrOne, RATING_SCORES, jsRound, attrsB,
    wCost, wScal, wCompl, wMaint, exWeights, cHigh, List.find?]
  norm_num

/-- The example comparison produces options A (score 71) and B (62), in
that order. -/
theorem exScoresResult :
    (compare exInput).options.map (fun oc => (oc.name, oc.score)) =
      [("Option A", 71), ("Option B", 62)] := by
  have hopts : (compare exInput).options =
      [buildOptionComparison optA (attrsA ++ attrsB) exWeights cHigh,
        buildOptionComparison optB (attrsA ++ attrsB) exWeights cHigh] := rfl
  have h1 :
      (buildOptionComparison optA (attrsA ++ attrsB) exWeights cHigh).score =
        71 := exScoreA
  have h2 :
      (buildOptionComparison optB (attrsA ++ attrsB) exWeights cHigh).score =
        62 := exScoreB
  have hn1 :
      (buildOptionComparison optA (attrsA ++ attrsB) exWeights cHigh).name =
        "Option A" := rfl
  have hn2 :
      (buildOptionComparison optB (attrsA ++ attrsB) exWeights cHigh).name =
        "Option B" := rfl
  rw [hopts]
  simp only [List.map_cons, List.map_nil]
  rw [h1, h2, hn1, hn2]

/-- The example pivot result in full. -/
theorem exPivotResult :
    generatePivot (compare exInput) cHigh exWeights =
      { statement :=
          pivotStatement "scalability" "operational simplicity"
            "Option A" "Option B"
        primaryFactor := "scalability"
        secondaryFactor := "operational simplicity"
        optionA := "Option A"
        optionB := "Option B" } := by
  have hopts : (compare exInput).options =
      buildOptionComparison optA (attrsA ++ attrsB) exWeights cHigh ::
        buildOptionComparison optB (attrsA ++ attrsB) exWeights cHigh ::
          ([] : List OptionComparison) := rfl
  have htargets :
      pivotTargets
        (buildOptionComparison optA (attrsA ++ attrsB) exWeights cHigh)
        (buildOptionComparison optB (attrsA ++ attrsB) exWeights cHigh)
        "scalability" "complexity" = ("Option A", "Option B") := by decide
  unfold generatePivot
  rw [hopts]
  dsimp only
  rw [exPrimaryAttribute, exSecondaryAttribute, htargets]
  simp [ATTRIBUTE_NAMES, buildOptionComparison, optA, optB]

/-- C6 counterexample: on the stated example input the pivot's secondary
factor is operational simplicity (complexity, effective weight 1/4 >
cost_model's 6/25), so the statement is not the claimed "...matters more
than cost efficiency..." sentence. -/
theorem example_scenario_pivot_mismatch :
    (generatePivot (compare exInput) cHigh exWeights).statement ≠
        pivotStatement "scalability" "cost efficiency" "Option A"
          "Option B" ∧
      (generatePivot (compare exInput) cHigh exWeights).secondaryFactor =
        "operational simplicity" := by
  rw [exPivotResult]
  exact ⟨by decide, rfl⟩

/-- C6 amended: on the example input, A scores 71 and B scores 62 (A
strictly higher), the primary attribute is scalability, and the pivot
statement recommends A if scalability matters more than operational
simplicity (not cost efficiency) and otherwise recommends B. -/
theorem example_scenario_behavior :
    ((compare exInput).options.map (fun oc => (oc.name, oc.score)) =
        [("Option A", 71), ("Option B", 62)]) ∧
      ((62 : ℤ) < 71) ∧
      getPrimaryAttribute exWeights cHigh = "scalability" ∧
      (generatePivot (compare exInput) cHigh exWeights).statement =
        pivotStatement "scalability" "operational simplicity" "Option A"
          "Option B" := by
  refine ⟨exScoresResult, by norm_num, exPrimaryAttribute, ?_⟩
  rw [exPivotResult]

/-- C7 counterexample: with an empty weights list, two options whose
scalability ratings differ get identical scores and an identical primary
attribute under low and high scalability priority. -/
theorem weight_sensitivity_counterexample :
    ((attrsA.find? (fun a => a.attribute_type = "scalability")).map
        (fun a => a.rating) ≠
      (attrsB.find? (fun a => a.attribute_type = "scalability")).map
        (fun a => a.rating)) ∧
      ((compare
          { options := [optA, optB], attributes := attrsA ++ attrsB
            weights := [], optionIntegrations := []
            constraints := cLow }).options.map (fun oc => oc.score) =
        (compare
          { options := [optA, optB], attributes := attrsA ++ attrsB
            weights := [], optionIntegrations := []
            constraints := cHigh }).options.map (fun oc => oc.score)) ∧
      getPrimaryAttribute [] cLow = getPrimaryAttribute [] cHigh := by
  refine ⟨by decide, by decide, rfl⟩

/-- Primary attribute of the seeded weights under low priority. -/
theorem seededPrimaryLow (bmin bmax : ℚ) (req : List String) :
    getPrimaryAttribute seededWeights
      (sensConstraints bmin bmax req .low) = "cost_model" := by
  have h1 : getEffectiveWeights seededWeights
      (sensConstraints bmin bmax req .low) =
      [("cost_model", 9/25), ("scalability", 3/20), ("complexity", 1/4),
        ("maintenance", 11/50)] := by
    simp [getEffectiveWeights, seededWeights, mapSet,
      calculateEffectiveWeight, selectedScalabilityModifier, jsOrOne,
      sensConstraints]
    norm_num
  unfold getPrimaryAttribute
  rw [h1]
  simp [primaryFold]
  norm_num

/-- Primary attribute of the seeded weights under high priority. -/
theorem seededPrimaryHigh (bmin bmax : ℚ) (req : List String) :
    getPrimaryAttribute seededWeights
      (sensConstraints bmin bmax req .high) = "scalability" := by
  have h1 : getEffectiveWeights seededWeights
      (sensConstraints bmin bmax req .high) =
      [("cost_model", 6/25), ("scalability", 3/8), ("complexity", 9/40),
        ("maintenance", 9/50)] := by
    simp [getEffectiveWeights, seededWeights, mapSet,
      calculateEffectiveWeight, selectedScalabilityModifier, jsOrOne,
      sensConstraints]
    norm_num
  unfold getPrimaryAttribute
  rw [h1]
  simp [primaryFold]
  norm_num

/-- C7 amended (pinned to the repository's seeded weights): for any two
options whose scalability ratings differ, running the pipeline under low
versus high scalability priority (all other constraints identical)
yields different scores for some option and/or a different primary
attribute — with the seeded weights the primary attribute always
differs. -/
theorem weight_sensitivity_seeded (oA oB : OptionRow)
    (attributes : List AttributeRow)
    (optionIntegrations : List OptionIntegrationRow) (bmin bmax : ℚ)
    (req : List String)
    (hdiff :
      (attributes.find? (fun x =>
          x.option_id = oA.id ∧ x.attribute_type = "scalability")).map
        (fun x => x.rating) ≠
      (attributes.find? (fun x =>
          x.option_id = oB.id ∧ x.attribute_type = "scalability")).map
        (fun x => x.rating)) :
    ((compare
        { options := [oA, oB], attributes := attributes
          weights := seededWeights
          optionIntegrations := optionIntegrations
          constraints := sensConstraints bmin bmax req .low }).options.map
        (fun oc => oc.score) ≠
      (compare
        { options := [oA, oB], attributes := attributes
          weights := seededWeights
          optionIntegrations := optionIntegrations
          constraints := sensConstraints bmin bmax req .high }).options.map
        (fun oc => oc.score)) ∨
      getPrimaryAttribute seededWeights
          (sensConstraints bmin bmax req .low) ≠
        getPrimaryAttribute seededWeights
          (sensConstraints bmin bmax req .high) := by
  right
  rw [seededPrimaryLow bmin bmax req, seededPrimaryHigh bmin bmax req]
  decide

/-- Witness for `weight_sensitivity_seeded` at the example options. -/
theorem weight_sensitivity_seeded_witness :
    ((compare
        { options := [optA, optB], attributes := attrsA ++ attrsB
          weights := seededWeights, optionIntegrations := []
          constraints := sensConstraints 0 50000 [] .low }).options.map
        (fun oc => oc.score) ≠
      (compare
        { options := [optA, optB], attributes := attrsA ++ attrsB
          weights := seededWeights, optionIntegrations := []
          constraints := sensConstraints 0 50000 [] .high }).options.map
        (fun oc => oc.score)) ∨
      getPrimaryAttribute seededWeights (sensConstraints 0 50000 [] .low) ≠
        getPrimaryAttribute seededWeights
          (sensConstraints 0 50000 [] .high) :=
  weight_sensitivity_seeded optA optB (attrsA ++ attrsB) [] 0 50000 []
    (by decide)

end Referee
